import Mathlib

/-!
Verification of the safety-classification engine of the shellgpt repository
(`src/core/safety_checker.py` together with the data model in
`src/models/command.py`).

The Python code is shallowly embedded below.  Strings are handled as
`String`/`List Char`; Python's `str.lower()`, `\b`, `\s` and `\w` are modelled
with their ASCII meaning (all pattern tables and all inputs considered in the
theorems are ASCII).  Python regular-expression search (`re.search`) is
modelled by an executable token matcher: every pattern occurring in the source
uses only literal characters, the class `[a-z]`, `\s+`, `\s*`, `.*` and `\b`,
so a token list with a single starred element class is sufficient and the
matcher stays structurally recursive (hence kernel-evaluable).
-/

namespace ShellGpt

/-! ## Data model (`src/models/command.py`) -/

/-- `CommandType` from `models/command.py`. -/
inductive CommandType where
  | file_operation
  | git_command
  | system_info
  | process_management
  | network_operation
  | package_management
  | custom
deriving DecidableEq, Repr

/-- `SafetyLevel` from `models/command.py`: safe, cautious, dangerous, forbidden. -/
inductive SafetyLevel where
  | safe
  | cautious
  | dangerous
  | forbidden
deriving DecidableEq, BEq, Repr

/-- Severity rank of a tier, following the order
`Safe < Cautious < Dangerous < Forbidden` stated by the specification. -/
def sevRank : SafetyLevel → Nat
  | .safe => 0
  | .cautious => 1
  | .dangerous => 2
  | .forbidden => 3

/-- The `Command` record from `models/command.py`.  `confidence` (a Python
float the classifier never touches) is modelled as a rational; `timestamp` as
a natural number.  Context values are modelled as strings, which is what the
repository's context collector supplies; Python truthiness of such a value is
non-emptiness. -/
structure Command where
  original_query : String
  shell_command : String
  explanation : String
  command_type : CommandType
  safety_level : SafetyLevel
  confidence : ℚ
  alternatives : List String
  warnings : List String
  context_used : List (String × String)
  timestamp : Nat

/-! ## String primitives

Python's `needle in hay`, `str.lower()` and `str.strip()` on ASCII data. -/

/-- Python's whitespace class `\s` (ASCII part). -/
def pyWs (c : Char) : Bool :=
  c == ' ' || c == '\t' || c == '\n' || c == '\r' || c == '\x0b' || c == '\x0c'

/-- `isPrefixList n h` decides whether `n` is a prefix of `h`. -/
def isPrefixList : List Char → List Char → Bool
  | [], _ => true
  | _ :: _, [] => false
  | a :: as, b :: bs => a == b && isPrefixList as bs

/-- Python's substring containment `needle in hay` (empty needle contained). -/
def containsList (needle : List Char) : List Char → Bool
  | [] => isPrefixList needle []
  | c :: rest => isPrefixList needle (c :: rest) || containsList needle rest

/-- Python `needle in hay` on strings. -/
def strContains (hay needle : String) : Bool :=
  containsList needle.data hay.data

/-- Python `str.lower()` (ASCII model). -/
def lowerStr (s : String) : String :=
  String.mk (s.data.map Char.toLower)

/-- Python `str.strip()` with no argument (ASCII whitespace model). -/
def trimPy (s : List Char) : List Char :=
  ((s.dropWhile pyWs).reverse.dropWhile pyWs).reverse

/-! ## Regular expressions (`re.search`)

Tokens sufficient for every pattern in `_load_dangerous_patterns`. -/

/-- A single-character regex element: literal, `.`, `\s`, or a range class. -/
inductive RElem where
  | ch (c : Char)
  | anyc
  | wsp
  | rng (lo hi : Char)

/-- A regex token: one element, a starred element, or the word boundary `\b`.
`e+` is written as `one e` followed by `star e`. -/
inductive RTok where
  | one (e : RElem)
  | star (e : RElem)
  | wb

/-- Whether a single element matches a character (`.` excludes newline,
exactly as in Python). -/
def elemMatch : RElem → Char → Bool
  | .ch c, d => c == d
  | .anyc, d => !(d == '\n')
  | .wsp, d => pyWs d
  | .rng lo hi, d => decide (lo.toNat ≤ d.toNat) && decide (d.toNat ≤ hi.toNat)

/-- Python's `\w` (ASCII model): alphanumeric or underscore. -/
def isWordChar (c : Char) : Bool := c.isAlphanum || c == '_'

/-- Word-character test on the optional character preceding the current
position (`none` at the start of the string). -/
def isWordCharOpt : Option Char → Bool
  | none => false
  | some c => isWordChar c

/-- Word-character test on the head of the remaining input. -/
def headIsWord : List Char → Bool
  | [] => false
  | c :: _ => isWordChar c

/-- The zero-width word boundary `\b`. -/
def wbHolds (prev : Option Char) (s : List Char) : Bool :=
  isWordCharOpt prev != headIsWord s

/-- `starLoop next e prev s` matches `e*` followed by the continuation
`next`, trying the shortest consumption first (sufficient for existence of a
match, which is all `re.search` truthiness needs). -/
def starLoop (next : Option Char → List Char → Bool) (e : RElem) :
    Option Char → List Char → Bool
  | prev, [] => next prev []
  | prev, c :: s' => next prev (c :: s') || (elemMatch e c && starLoop next e (some c) s')

/-- `matchToks ts prev s` holds when some prefix of `s` matches the token
sequence `ts`; `prev` is the character just before `s` in the full input. -/
def matchToks : List RTok → Option Char → List Char → Bool
  | [], _, _ => true
  | .wb :: ts, prev, s => wbHolds prev s && matchToks ts prev s
  | .one e :: ts, _, s =>
    match s with
    | [] => false
    | c :: s' => elemMatch e c && matchToks ts (some c) s'
  | .star e :: ts, prev, s => starLoop (matchToks ts) e prev s

/-- Attempt a match at every position of the input. -/
def searchFrom (ts : List RTok) (prev : Option Char) : List Char → Bool
  | [] => matchToks ts prev []
  | c :: s' => matchToks ts prev (c :: s') || searchFrom ts (some c) s'

/-- Truthiness of Python `re.search(pattern, s)`. -/
def research (ts : List RTok) (s : String) : Bool :=
  searchFrom ts none s.data

/-- The character immediately preceding the position reached after reading
`l`, given that `prev` precedes `l` itself. -/
def lastCharOpt (prev : Option Char) : List Char → Option Char
  | [] => prev
  | c :: cs => lastCharOpt (some c) cs

/-- Literal characters of a string as tokens. -/
def lits (s : String) : List RTok := s.data.map (fun c => RTok.one (RElem.ch c))

/-- `\s+` as tokens. -/
def wsPlus : List RTok := [RTok.one RElem.wsp, RTok.star RElem.wsp]

/-- `\s*` as tokens. -/
def wsStar : List RTok := [RTok.star RElem.wsp]

/-- `.*` as tokens. -/
def dotStar : List RTok := [RTok.star RElem.anyc]

/-! ## The pattern library (`SafetyChecker._load_dangerous_patterns`)

Each entry pairs the Python pattern source string (used verbatim in the
warning message) with its token translation. -/

/-- Tokens of `\brm\s+-rf\s+/`, the first destructive pattern. -/
def rmrfSlashToks : List RTok :=
  [RTok.wb] ++ lits "rm" ++ wsPlus ++ lits "-rf" ++ wsPlus ++ lits "/"

/-- The `destructive` pattern category. -/
def destructivePats : List (String × List RTok) :=
  ("\\brm\\s+-rf\\s+/", rmrfSlashToks) ::
  [("\\brm\\s+-rf\\s+\\*", [RTok.wb] ++ lits "rm" ++ wsPlus ++ lits "-rf" ++ wsPlus ++ lits "*"),
   ("\\bdd\\s+if=.*of=/dev/", [RTok.wb] ++ lits "dd" ++ wsPlus ++ lits "if=" ++ dotStar ++ lits "of=/dev/"),
   ("\\bmkfs\\.", [RTok.wb] ++ lits "mkfs."),
   ("\\bformat\\s+", [RTok.wb] ++ lits "format" ++ wsPlus),
   (">\\s*/dev/sd[a-z]", lits ">" ++ wsStar ++ lits "/dev/sd" ++ [RTok.one (RElem.rng 'a' 'z')]),
   ("\\bshred\\s+", [RTok.wb] ++ lits "shred" ++ wsPlus),
   ("\\bwipe\\s+", [RTok.wb] ++ lits "wipe" ++ wsPlus)]

/-- The `privilege_escalation` pattern category. -/
def privilegePats : List (String × List RTok) :=
  [("\\bsudo\\s+rm\\s+-rf", [RTok.wb] ++ lits "sudo" ++ wsPlus ++ lits "rm" ++ wsPlus ++ lits "-rf"),
   ("\\bsudo\\s+dd\\s+", [RTok.wb] ++ lits "sudo" ++ wsPlus ++ lits "dd" ++ wsPlus),
   ("\\bsudo\\s+chmod\\s+777", [RTok.wb] ++ lits "sudo" ++ wsPlus ++ lits "chmod" ++ wsPlus ++ lits "777"),
   ("\\bsu\\s+-\\s+", [RTok.wb] ++ lits "su" ++ wsPlus ++ lits "-" ++ wsPlus),
   ("\\bsudo\\s+su\\s+", [RTok.wb] ++ lits "sudo" ++ wsPlus ++ lits "su" ++ wsPlus)]

/-- The `network_dangerous` pattern category. -/
def networkPats : List (String × List RTok) :=
  [("\\bnc\\s+.*-e\\s+", [RTok.wb] ++ lits "nc" ++ wsPlus ++ dotStar ++ lits "-e" ++ wsPlus),
   ("\\bnetcat\\s+.*-e\\s+", [RTok.wb] ++ lits "netcat" ++ wsPlus ++ dotStar ++ lits "-e" ++ wsPlus),
   ("\\bbash\\s+-i\\s+>&\\s+/dev/tcp/",
     [RTok.wb] ++ lits "bash" ++ wsPlus ++ lits "-i" ++ wsPlus ++ lits ">&" ++ wsPlus ++ lits "/dev/tcp/"),
   ("\\bwget\\s+.*\\|\\s*bash", [RTok.wb] ++ lits "wget" ++ wsPlus ++ dotStar ++ lits "|" ++ wsStar ++ lits "bash"),
   ("\\bcurl\\s+.*\\|\\s*bash", [RTok.wb] ++ lits "curl" ++ wsPlus ++ dotStar ++ lits "|" ++ wsStar ++ lits "bash"),
   ("\\bcurl\\s+.*\\|\\s*sh", [RTok.wb] ++ lits "curl" ++ wsPlus ++ dotStar ++ lits "|" ++ wsStar ++ lits "sh")]

/-- The `system_modification` pattern category. -/
def sysmodPats : List (String × List RTok) :=
  [("\\bchmod\\s+777\\s+/", [RTok.wb] ++ lits "chmod" ++ wsPlus ++ lits "777" ++ wsPlus ++ lits "/"),
   ("\\bchown\\s+.*:/", [RTok.wb] ++ lits "chown" ++ wsPlus ++ dotStar ++ lits ":/"),
   (">\\s*/etc/", lits ">" ++ wsStar ++ lits "/etc/"),
   ("\\bmount\\s+", [RTok.wb] ++ lits "mount" ++ wsPlus),
   ("\\bumount\\s+", [RTok.wb] ++ lits "umount" ++ wsPlus),
   ("\\bfdisk\\s+", [RTok.wb] ++ lits "fdisk" ++ wsPlus),
   ("\\bparted\\s+", [RTok.wb] ++ lits "parted" ++ wsPlus)]

/-- The `credential_exposure` pattern category. -/
def credentialPats : List (String × List RTok) :=
  [("\\becho\\s+.*password", [RTok.wb] ++ lits "echo" ++ wsPlus ++ dotStar ++ lits "password"),
   ("\\becho\\s+.*token", [RTok.wb] ++ lits "echo" ++ wsPlus ++ dotStar ++ lits "token"),
   ("\\becho\\s+.*secret", [RTok.wb] ++ lits "echo" ++ wsPlus ++ dotStar ++ lits "secret"),
   ("\\bcat\\s+.*\\.pem", [RTok.wb] ++ lits "cat" ++ wsPlus ++ dotStar ++ lits ".pem"),
   ("\\bcat\\s+.*\\.key", [RTok.wb] ++ lits "cat" ++ wsPlus ++ dotStar ++ lits ".key"),
   ("\\bcat\\s+.*password", [RTok.wb] ++ lits "cat" ++ wsPlus ++ dotStar ++ lits "password")]

/-- `_load_dangerous_patterns`, categories in the dictionary's insertion
order (Python dictionaries iterate in insertion order). -/
def dangerous_patterns : List (String × List (String × List RTok)) :=
  [("destructive", destructivePats),
   ("privilege_escalation", privilegePats),
   ("network_dangerous", networkPats),
   ("system_modification", sysmodPats),
   ("credential_exposure", credentialPats)]

/-- `_load_critical_paths`, in source order.  The Python value is a set whose
iteration order is unspecified; no theorem below depends on the order of the
critical-path warnings, only on membership. -/
def system_critical_paths : List String :=
  ["/", "/bin", "/sbin", "/usr", "/etc", "/boot", "/sys", "/proc",
   "/dev", "/var/log", "/usr/bin", "/usr/sbin", "/lib", "/lib64",
   "C:\\Windows", "C:\\Program Files", "C:\\System32"]

/-- `_load_risky_flags`. -/
def risky_flags : List (String × List String) :=
  [("rm", ["-rf", "-r", "-f", "--recursive", "--force"]),
   ("chmod", ["777", "666", "755"]),
   ("dd", ["of=/dev/", "if=/dev/"]),
   ("curl", ["|bash", "|sh", "|python"]),
   ("wget", ["|bash", "|sh", "|python"]),
   ("find", ["-delete", "-exec rm"])]

/-! ## The classifier (`SafetyChecker`) -/

/-- The tier update performed inside `_analyze_patterns` when a pattern of
the given category matches. -/
def updateDanger (category : String) (cur : SafetyLevel) : SafetyLevel :=
  if category == "destructive" then SafetyLevel.dangerous
  else if category == "privilege_escalation" || category == "system_modification" then
    if !(cur == SafetyLevel.dangerous) then SafetyLevel.cautious else cur
  else if category == "network_dangerous" || category == "credential_exposure" then
    if cur == SafetyLevel.safe then SafetyLevel.cautious else cur
  else cur

/-- Inner loop of `_analyze_patterns`: one category's patterns, in order,
threading `(max_danger, warnings)`. -/
def scanPatterns (cat : String) (pats : List (String × List RTok)) (s : String)
    (acc : SafetyLevel × List String) : SafetyLevel × List String :=
  match pats with
  | [] => acc
  | p :: rest =>
    if research p.2 s = true then
      scanPatterns cat rest s
        (updateDanger cat acc.1, acc.2 ++ ["Detected " ++ cat ++ " pattern: " ++ p.1])
    else
      scanPatterns cat rest s acc

/-- Outer loop of `_analyze_patterns` over the category table. -/
def scanCategories (cats : List (String × List (String × List RTok))) (s : String)
    (acc : SafetyLevel × List String) : SafetyLevel × List String :=
  match cats with
  | [] => acc
  | c :: rest => scanCategories rest s (scanPatterns c.1 c.2 s acc)

/-- `SafetyChecker._analyze_patterns`: returns `(max_danger, warnings)`,
starting from `SAFE` and an empty warning list. -/
def analyze_patterns (s : String) : SafetyLevel × List String :=
  scanCategories dangerous_patterns s (SafetyLevel.safe, [])

/-- `SafetyChecker._check_critical_paths`: one warning per critical path
contained in the (lowercased) command. -/
def check_critical_paths (cmd : String) : List String :=
  (system_critical_paths.filter fun p => containsList p.data cmd.data).map
    fun p => "Command targets critical system path: " ++ p

/-- `SafetyChecker._check_risky_flags`. -/
def check_risky_flags (cmd : String) : List String :=
  risky_flags.foldl
    (fun acc p =>
      if strContains cmd p.1 then
        acc ++ (p.2.filter fun f => strContains cmd f).map
          (fun f => "Risky flag detected: " ++ p.1 ++ " " ++ f)
      else acc)
    []

/-- The literal git commands checked by `_check_context_safety`. -/
def git_commands : List String :=
  ["git reset --hard", "git clean -fd", "git push --force"]

/-- `SafetyChecker._check_context_safety`: context-based warnings.  Reads the
keys `user`, `current_directory` and `git_repository` with defaulted lookups,
exactly as the Python `dict.get` calls do. -/
def check_context_safety (c : Command) : List String :=
  let userWarn :=
    if (List.lookup "user" c.context_used) == some "root" then
      ["Running as root user - extra caution advised"]
    else []
  let current_dir := (List.lookup "current_directory" c.context_used).getD ""
  let dirWarn :=
    if (["home", "documents", "desktop"].any fun imp =>
          containsList imp.data (lowerStr current_dir).data)
        && containsList "rm".data (lowerStr c.shell_command).data then
      ["Deletion command in user directory"]
    else []
  let gitWarn :=
    if ((List.lookup "git_repository" c.context_used).getD "") ≠ "" then
      (git_commands.filter fun g =>
          containsList g.data (lowerStr c.shell_command).data).map
        fun g => "Potentially destructive git command: " ++ g
    else []
  userWarn ++ dirWarn ++ gitWarn

/-- `SafetyChecker.check_command_safety`: runs the four scans on the
lowercased command, overwrites `safety_level` with the pattern scan's
`max_danger`, and extends `warnings` with all collected warnings. -/
def check_command_safety (c : Command) : Command :=
  let shell := lowerStr c.shell_command
  let pr := analyze_patterns shell
  let pathWarnings := check_critical_paths shell
  let flagWarnings := check_risky_flags shell
  let contextWarnings := check_context_safety c
  { c with
      safety_level := pr.1,
      warnings := c.warnings ++ (pr.2 ++ pathWarnings ++ flagWarnings ++ contextWarnings) }

/-- `SafetyChecker.should_require_confirmation`. -/
def should_require_confirmation (c : Command) : Bool :=
  [SafetyLevel.cautious, SafetyLevel.dangerous].contains c.safety_level

/-- `SafetyChecker.is_command_forbidden`. -/
def is_command_forbidden (c : Command) : Bool :=
  c.safety_level == SafetyLevel.forbidden

/-! ## `SafetyChecker.sanitize_command` -/

/-- `re.sub(r'\|\s*(bash|sh|python)', '', s)`: scan left to right; at a `|`,
greedily drop whitespace and try the alternatives in order.  The alternatives
all start with a non-whitespace character, so consuming the maximal
whitespace run is equivalent to the backtracking semantics of `\s*`. -/
def subPipeInterp : List Char → List Char
  | [] => []
  | c :: rest =>
    if c = '|' then
      let r2 := rest.dropWhile pyWs
      if isPrefixList "bash".data r2 then subPipeInterp (r2.drop 4)
      else if isPrefixList "sh".data r2 then subPipeInterp (r2.drop 2)
      else if isPrefixList "python".data r2 then subPipeInterp (r2.drop 6)
      else c :: subPipeInterp rest
    else c :: subPipeInterp rest
termination_by s => s.length
decreasing_by
  all_goals simp only [List.length_cons, List.length_drop]
  · have : (rest.dropWhile pyWs).length ≤ rest.length := (List.dropWhile_sublist pyWs).length_le
    omega
  · have : (rest.dropWhile pyWs).length ≤ rest.length := (List.dropWhile_sublist pyWs).length_le
    omega
  · have : (rest.dropWhile pyWs).length ≤ rest.length := (List.dropWhile_sublist pyWs).length_le
    omega
  · omega
  · omega

/-- Python `str.replace(pat, repl)`: all non-overlapping occurrences,
left to right (`pat` nonempty at every call site). -/
def replaceList (pat repl : List Char) : List Char → List Char
  | [] => []
  | c :: rest =>
    if isPrefixList pat (c :: rest) = true ∧ pat ≠ [] then
      repl ++ replaceList pat repl ((c :: rest).drop pat.length)
    else
      c :: replaceList pat repl rest
termination_by s => s.length
decreasing_by
  all_goals simp only [List.length_cons, List.length_drop]
  · rename_i h; rcases h with ⟨-, hne⟩
    have : 0 < pat.length := List.length_pos.mpr hne
    omega
  · omega

/-- `SafetyChecker.sanitize_command`: strip pipe-to-interpreter segments;
if the result still contains `"rm"` and some critical path (case-sensitive,
unlike classification), downgrade `-rf` to `-r` and delete `-f`; trim. -/
def sanitize_command (command : String) : String :=
  let sanitized := subPipeInterp command.data
  let sanitized2 :=
    if containsList "rm".data sanitized
        && system_critical_paths.any (fun p => containsList p.data sanitized) then
      replaceList "-f".data [] (replaceList "-rf".data "-r".data sanitized)
    else sanitized
  String.mk (trimPy sanitized2)

/-- The sanitize contract in the words of the specification (§4.2): remove
pipe-to-interpreter suffixes matching `\|\s*(bash|sh|python)` by replacing
them with the empty string; if the resulting string contains `"rm"` and any
critical-path entry as substrings, downgrade every `-rf` occurrence to `-r`
and delete every remaining `-f` occurrence; return the whitespace-trimmed
result. -/
def sanitizeSpec (command : String) : String :=
  let stripped := subPipeInterp command.data
  let hasRm := containsList "rm".data stripped
  let hasCriticalPath := system_critical_paths.any fun p => containsList p.data stripped
  let defanged :=
    if hasRm && hasCriticalPath then
      replaceList "-f".data [] (replaceList "-rf".data "-r".data stripped)
    else stripped
  String.mk (trimPy defanged)

/-! ## Concrete command records used in counterexamples and witnesses -/

/-- A freshly produced record (lifecycle default tier Safe) with the given
command and context, as built by the repository's upstream producers. -/
def mkRecord (cmd : String) (ctx : List (String × String)) (lvl : SafetyLevel) : Command :=
  { original_query := "query", shell_command := cmd, explanation := "explanation",
    command_type := CommandType.custom, safety_level := lvl, confidence := 1,
    alternatives := [], warnings := [], context_used := ctx, timestamp := 0 }

/-- An already-Dangerous record holding a harmless command. -/
def recLsDangerous : Command := mkRecord "ls" [] SafetyLevel.dangerous

/-- A fresh Safe record holding a harmless command. -/
def recEchoHi : Command := mkRecord "echo hi" [] SafetyLevel.safe

/-- A record whose command contains `"rm -rf /"` as a substring but only
inside the word `form`, so no word boundary precedes `rm`. -/
def recFormRf : Command := mkRecord "form -rf /" [] SafetyLevel.safe

/-- A record holding the literal command `rm -rf /`. -/
def recRmrfSlash : Command := mkRecord "rm -rf /" [] SafetyLevel.safe

/-- A record that matches a critical path but no dangerous pattern. -/
def recLsSlash : Command := mkRecord "ls /" [] SafetyLevel.safe

/-- The spec §8 scenario: `git push --force` inside a git repository. -/
def recGitPush : Command :=
  mkRecord "git push --force" [("git_repository", "myrepo")] SafetyLevel.safe

/-- A record with an empty context mapping. -/
def recNoContext : Command := mkRecord "rm -rf ~/home/x" [] SafetyLevel.safe

/-- A record naming a path with a slash, for the critical-path claim. -/
def recCatEtc : Command := mkRecord "cat /etc/hostname" [] SafetyLevel.safe

/-! ## Support lemmas about the pattern scan -/

/-- A match in the `destructive` category forces the running tier to
Dangerous, whatever it was before. -/
theorem updateDanger_destructive (cur : SafetyLevel) :
    updateDanger "destructive" cur = SafetyLevel.dangerous := rfl

/-- No category update ever lowers Dangerous. -/
theorem updateDanger_dangerous (cat : String) :
    updateDanger cat SafetyLevel.dangerous = SafetyLevel.dangerous := by
  unfold updateDanger
  have h1 : (!(SafetyLevel.dangerous == SafetyLevel.dangerous)) = false := rfl
  have h2 : (SafetyLevel.dangerous == SafetyLevel.safe) = false := rfl
  simp [h1, h2]

/-- No category update ever produces Forbidden from a non-Forbidden tier. -/
theorem updateDanger_ne_forbidden (cat : String) (cur : SafetyLevel)
    (h : cur ≠ SafetyLevel.forbidden) :
    updateDanger cat cur ≠ SafetyLevel.forbidden := by
  unfold updateDanger
  repeat' split
  all_goals first | exact h | decide

/-- The inner pattern loop preserves an already-Dangerous running tier. -/
theorem scanPatterns_fst_dangerous (cat : String) (pats : List (String × List RTok))
    (s : String) (acc : SafetyLevel × List String) (h : acc.1 = SafetyLevel.dangerous) :
    (scanPatterns cat pats s acc).1 = SafetyLevel.dangerous := by
  induction pats generalizing acc with
  | nil => simpa [scanPatterns] using h
  | cons p rest ih =>
    by_cases hres : research p.2 s = true
    · simp only [scanPatterns, hres, if_true]
      exact ih _ (by simp [h, updateDanger_dangerous])
    · simp only [scanPatterns, hres, if_false]
      exact ih _ h

/-- The outer category loop preserves an already-Dangerous running tier. -/
theorem scanCategories_fst_dangerous (cats : List (String × List (String × List RTok)))
    (s : String) (acc : SafetyLevel × List String) (h : acc.1 = SafetyLevel.dangerous) :
    (scanCategories cats s acc).1 = SafetyLevel.dangerous := by
  induction cats generalizing acc with
  | nil => simpa [scanCategories] using h
  | cons c rest ih =>
    simp only [scanCategories]
    exact ih _ (scanPatterns_fst_dangerous _ _ _ _ h)

/-- If some destructive pattern matches, the inner loop over the
`destructive` category ends Dangerous. -/
theorem scanPatterns_destructive_match (pats : List (String × List RTok)) (s : String)
    (acc : SafetyLevel × List String) (p : String × List RTok)
    (hmem : p ∈ pats) (hres : research p.2 s = true) :
    (scanPatterns "destructive" pats s acc).1 = SafetyLevel.dangerous := by
  induction pats generalizing acc with
  | nil => cases hmem
  | cons q rest ih =>
    rcases List.mem_cons.mp hmem with rfl | hmem'
    · simp only [scanPatterns, hres, if_true]
      exact scanPatterns_fst_dangerous _ _ _ _ (by simp [updateDanger_destructive])
    · by_cases hq : research q.2 s = true
      · simp only [scanPatterns, hq, if_true]
        exact ih _ hmem'
      · simp only [scanPatterns, hq, if_false]
        exact ih _ hmem'

/-- The inner pattern loop never reaches Forbidden. -/
theorem scanPatterns_fst_ne_forbidden (cat : String) (pats : List (String × List RTok))
    (s : String) (acc : SafetyLevel × List String) (h : acc.1 ≠ SafetyLevel.forbidden) :
    (scanPatterns cat pats s acc).1 ≠ SafetyLevel.forbidden := by
  induction pats generalizing acc with
  | nil => simpa [scanPatterns] using h
  | cons p rest ih =>
    by_cases hres : research p.2 s = true
    · simp only [scanPatterns, hres, if_true]
      exact ih _ (updateDanger_ne_forbidden _ _ h)
    · simp only [scanPatterns, hres, if_false]
      exact ih _ h

/-- The outer category loop never reaches Forbidden. -/
theorem scanCategories_fst_ne_forbidden (cats : List (String × List (String × List RTok)))
    (s : String) (acc : SafetyLevel × List String) (h : acc.1 ≠ SafetyLevel.forbidden) :
    (scanCategories cats s acc).1 ≠ SafetyLevel.forbidden := by
  induction cats generalizing acc with
  | nil => simpa [scanCategories] using h
  | cons c rest ih =>
    simp only [scanCategories]
    exact ih _ (scanPatterns_fst_ne_forbidden _ _ _ _ h)

/-! ## Support lemmas about the regex matcher -/

/-- If the token sequence matches at the start of `rest`, searching the
whole input `pre ++ rest` succeeds; `lastCharOpt` tracks the character seen
just before the match position. -/
theorem searchFrom_append (ts : List RTok) (pre rest : List Char) (prev : Option Char)
    (h : matchToks ts (lastCharOpt prev pre) rest = true) :
    searchFrom ts prev (pre ++ rest) = true := by
  induction pre generalizing prev with
  | nil =>
    simp only [lastCharOpt] at h
    cases rest with
    | nil => exact h
    | cons c s' =>
      simp only [List.nil_append, searchFrom, h, Bool.true_or]
  | cons a pre' ih =>
    simp only [List.cons_append, searchFrom]
    have := ih (some a) h
    simp [this]

/-- The pattern `\brm\s+-rf\s+/` matches at the current position whenever the
input continues with the literal characters `rm -rf /` and the previous
character (if any) is not a word character. -/
theorem matchToks_rmrf (prev : Option Char) (suf : List Char)
    (h : isWordCharOpt prev = false) :
    matchToks rmrfSlashToks prev ("rm -rf /".data ++ suf) = true := by
  have hd : "rm -rf /".data = ['r', 'm', ' ', '-', 'r', 'f', ' ', '/'] := rfl
  rw [hd]
  cases prev with
  | none => rfl
  | some c =>
    have hc : isWordChar c = false := by simpa [isWordCharOpt] using h
    simp only [rmrfSlashToks, lits, wsPlus, List.append_assoc, List.cons_append,
      List.nil_append, List.map_cons, List.map_nil, matchToks, wbHolds, isWordCharOpt,
      headIsWord, hc, starLoop, elemMatch, pyWs]
    rfl

/-! ## The claims -/

/-- C1 (amended): classification always extends the warning list — the input
warnings are a prefix of the output warnings — and, for records entering with
the lifecycle's pre-classification tier Safe, the output tier is at least the
input tier in the severity order.  (The unamended claim, quantifying over
records of arbitrary incoming tier, is refuted by
`claim_c1_counterexample`: `safety_level` is overwritten by the pattern
scan's result, so an already-Dangerous record holding a harmless command is
lowered to Safe.) -/
theorem claim_c1_monotone_warnings (c : Command) :
    (∃ t, (check_command_safety c).warnings = c.warnings ++ t) ∧
    (c.safety_level = SafetyLevel.safe →
      sevRank c.safety_level ≤ sevRank (check_command_safety c).safety_level) := by
  constructor
  · exact ⟨_, rfl⟩
  · intro h
    rw [h]
    exact Nat.zero_le _

/-- C1, counterexample to the claim as stated: a record already at Dangerous
holding the command `ls` comes out of `check_command_safety` with a strictly
lower severity. -/
theorem claim_c1_counterexample :
    ¬ sevRank recLsDangerous.safety_level ≤
        sevRank (check_command_safety recLsDangerous).safety_level := by decide

/-- C1, witness: the amended theorem applied to a fresh Safe record. -/
theorem claim_c1_witness :
    recEchoHi.safety_level = SafetyLevel.safe ∧
      sevRank recEchoHi.safety_level ≤
        sevRank (check_command_safety recEchoHi).safety_level :=
  ⟨rfl, (claim_c1_monotone_warnings recEchoHi).2 rfl⟩

/-- C2: the output `safety_level` is exactly the `max_danger` computed by
`_analyze_patterns` on the lowercased command; in particular, when the
pattern scan reports Safe the final tier is Safe, regardless of what the
critical-path, risky-flag and context scans warned about. -/
theorem claim_c2_level_from_pattern_scan (c : Command) :
    (check_command_safety c).safety_level =
        (analyze_patterns (lowerStr c.shell_command)).1 ∧
      ((analyze_patterns (lowerStr c.shell_command)).1 = SafetyLevel.safe →
        (check_command_safety c).safety_level = SafetyLevel.safe) :=
  ⟨rfl, fun h => h⟩

/-- C2, witness: `ls /` trips the critical-path scan but no pattern, and
ends Safe. -/
theorem claim_c2_witness :
    (analyze_patterns (lowerStr recLsSlash.shell_command)).1 = SafetyLevel.safe ∧
      (check_command_safety recLsSlash).safety_level = SafetyLevel.safe :=
  ⟨by decide, (claim_c2_level_from_pattern_scan recLsSlash).2 (by decide)⟩

/-- C3 (amended): a command whose lowercased text contains `rm -rf /` *at a
word boundary* — at the start of the string or after a non-word character —
is classified Dangerous.  (The unamended claim, for an arbitrary occurrence
of the substring, is refuted by `claim_c3_counterexample`: the pattern
`\brm\s+-rf\s+/` requires a word boundary before `rm`, so the occurrence
inside `form -rf /` does not match.) -/
theorem claim_c3_rmrf_dangerous (c : Command) (pre suf : List Char)
    (hsplit : (lowerStr c.shell_command).data = pre ++ "rm -rf /".data ++ suf)
    (hbound : isWordCharOpt (lastCharOpt none pre) = false) :
    (check_command_safety c).safety_level = SafetyLevel.dangerous := by
  have hres : research rmrfSlashToks (lowerStr c.shell_command) = true := by
    unfold research
    rw [hsplit, List.append_assoc]
    exact searchFrom_append _ _ _ _ (matchToks_rmrf _ _ hbound)
  show (analyze_patterns (lowerStr c.shell_command)).1 = SafetyLevel.dangerous
  unfold analyze_patterns dangerous_patterns
  simp only [scanCategories]
  apply scanPatterns_fst_dangerous
  apply scanPatterns_fst_dangerous
  apply scanPatterns_fst_dangerous
  apply scanPatterns_fst_dangerous
  exact scanPatterns_destructive_match _ _ _ _ (List.mem_cons_self _ _) hres

/-- C3, counterexample to the claim as stated: `form -rf /` contains the
substring `rm -rf /` (inside the word `form`) yet is not classified
Dangerous. -/
theorem claim_c3_counterexample :
    containsList "rm -rf /".data (lowerStr recFormRf.shell_command).data = true ∧
      (check_command_safety recFormRf).safety_level ≠ SafetyLevel.dangerous := by decide

/-- C3, witness: the amended theorem applied to the literal command
`rm -rf /`. -/
theorem claim_c3_witness :
    (lowerStr recRmrfSlash.shell_command).data = [] ++ "rm -rf /".data ++ [] ∧
      isWordCharOpt (lastCharOpt none []) = false ∧
      (check_command_safety recRmrfSlash).safety_level = SafetyLevel.dangerous :=
  ⟨by decide, by decide,
   claim_c3_rmrf_dangerous recRmrfSlash [] [] (by decide) (by decide)⟩

/-- C4: classification never produces the Forbidden tier — the output of
`check_command_safety` is always Safe, Cautious or Dangerous. -/
theorem claim_c4_never_forbidden (c : Command) :
    (check_command_safety c).safety_level = SafetyLevel.safe ∨
    (check_command_safety c).safety_level = SafetyLevel.cautious ∨
    (check_command_safety c).safety_level = SafetyLevel.dangerous := by
  have h : (check_command_safety c).safety_level ≠ SafetyLevel.forbidden := by
    show (analyze_patterns (lowerStr c.shell_command)).1 ≠ SafetyLevel.forbidden
    exact scanCategories_fst_ne_forbidden _ _ _ (by simp)
  cases hv : (check_command_safety c).safety_level with
  | safe => exact Or.inl rfl
  | cautious => exact Or.inr (Or.inl rfl)
  | dangerous => exact Or.inr (Or.inr rfl)
  | forbidden => exact absurd hv h

/-- C5: `should_require_confirmation` is true exactly on the Cautious and
Dangerous tiers (hence false on Safe and on Forbidden). -/
theorem claim_c5_confirmation_iff (c : Command) :
    should_require_confirmation c = true ↔
      (c.safety_level = SafetyLevel.cautious ∨
        c.safety_level = SafetyLevel.dangerous) := by
  rcases c with ⟨q, sc, ex, ct, sl, cf, al, w, cu, ts⟩
  show [SafetyLevel.cautious, SafetyLevel.dangerous].contains sl = true ↔
    (sl = SafetyLevel.cautious ∨ sl = SafetyLevel.dangerous)
  cases sl <;> decide

/-- C6: the spec scenario — command `git push --force` with context
`{"git_repository": "myrepo"}` gets the destructive-git warning appended
while the tier stays Safe. -/
theorem claim_c6_git_push_scenario :
    "Potentially destructive git command: git push --force" ∈
        (check_command_safety recGitPush).warnings ∧
      (check_command_safety recGitPush).safety_level = SafetyLevel.safe := by decide

/-- C7: `sanitize_command` coincides with the specification's description of
the sanitize contract: remove pipe-to-interpreter segments, then — only when
the stripped string still contains `rm` together with some critical-path
entry — downgrade `-rf` to `-r` and delete the remaining `-f` occurrences,
and finally trim whitespace. -/
theorem claim_c7_sanitize_matches_spec (command : String) :
    sanitize_command command = sanitizeSpec command := rfl

/-- C8: the context-sensitive scan tolerates missing context keys (the
embedding is total, so `check_command_safety` always completes): a missing
`user` key never yields the root warning, a missing `current_directory` key
never yields the user-directory deletion warning, and a missing
`git_repository` key never yields a destructive-git warning. -/
theorem claim_c8_missing_context_keys (c : Command) :
    (List.lookup "user" c.context_used = none →
      "Running as root user - extra caution advised" ∉ check_context_safety c) ∧
    (List.lookup "current_directory" c.context_used = none →
      "Deletion command in user directory" ∉ check_context_safety c) ∧
    (List.lookup "git_repository" c.context_used = none →
      ∀ g ∈ git_commands,
        ("Potentially destructive git command: " ++ g) ∉ check_context_safety c) := by
  refine ⟨?_, ?_, ?_⟩
  · intro hu hmem
    simp only [check_context_safety, hu,
      show ((none : Option String) == some "root") = false from rfl,
      Bool.false_eq_true, if_false, List.nil_append, List.mem_append] at hmem
    rcases hmem with hmem | hmem
    · split at hmem <;> simp_all
    · split at hmem
      · rcases List.mem_map.mp hmem with ⟨g, hg, heq⟩
        have hg' : g ∈ git_commands := List.mem_of_mem_filter hg
        fin_cases hg' <;> simp_all
      · simp at hmem
  · intro hd hmem
    have hany : (["home", "documents", "desktop"].any fun imp =>
        containsList imp.data (lowerStr "").data) = false := rfl
    simp only [check_context_safety, hd, Option.getD_none, hany, Bool.false_and,
      Bool.false_eq_true, if_false, List.mem_append] at hmem
    rcases hmem with (hmem | hmem) | hmem
    · split at hmem <;> simp_all
    · simp at hmem
    · split at hmem
      · rcases List.mem_map.mp hmem with ⟨g, hg, heq⟩
        have hg' : g ∈ git_commands := List.mem_of_mem_filter hg
        fin_cases hg' <;> simp_all
      · simp at hmem
  · intro hg g hgit hmem
    simp only [check_context_safety, hg, Option.getD_none, List.mem_append] at hmem
    rcases hmem with (hmem | hmem) | hmem
    · split at hmem <;> (fin_cases hgit <;> simp_all)
    · split at hmem <;> (fin_cases hgit <;> simp_all)
    · simp_all

/-- C8, witness: the theorem applied to a record with an empty context. -/
theorem claim_c8_witness :
    "Running as root user - extra caution advised" ∉ check_context_safety recNoContext ∧
      "Deletion command in user directory" ∉ check_context_safety recNoContext ∧
      ("Potentially destructive git command: " ++ "git push --force") ∉
        check_context_safety recNoContext :=
  ⟨(claim_c8_missing_context_keys recNoContext).1 rfl,
   (claim_c8_missing_context_keys recNoContext).2.1 rfl,
   (claim_c8_missing_context_keys recNoContext).2.2 rfl "git push --force" (by decide)⟩

/-- C9: classification is a frame over `safety_level` and `warnings` — every
other field of the record, `context_used` included, is returned unchanged. -/
theorem claim_c9_frame (c : Command) :
    (check_command_safety c).original_query = c.original_query ∧
    (check_command_safety c).shell_command = c.shell_command ∧
    (check_command_safety c).explanation = c.explanation ∧
    (check_command_safety c).command_type = c.command_type ∧
    (check_command_safety c).confidence = c.confidence ∧
    (check_command_safety c).alternatives = c.alternatives ∧
    (check_command_safety c).context_used = c.context_used ∧
    (check_command_safety c).timestamp = c.timestamp :=
  ⟨rfl, rfl, rfl, rfl, rfl, rfl, rfl, rfl⟩

/-- C10: `/` is itself a critical-path entry and matching is plain substring
containment, so every command containing a slash carries the warning
`Command targets critical system path: /`. -/
theorem claim_c10_slash_warning (c : Command)
    (h : containsList "/".data (lowerStr c.shell_command).data = true) :
    "Command targets critical system path: /" ∈
      (check_command_safety c).warnings := by
  have h1 : "Command targets critical system path: /" ∈
      check_critical_paths (lowerStr c.shell_command) := by
    unfold check_critical_paths
    refine List.mem_map.mpr ⟨"/", List.mem_filter.mpr ⟨?_, ?_⟩, rfl⟩
    · simp [system_critical_paths]
    · exact h
  show "Command targets critical system path: /" ∈
    c.warnings ++ ((analyze_patterns (lowerStr c.shell_command)).2 ++
      check_critical_paths (lowerStr c.shell_command) ++
      check_risky_flags (lowerStr c.shell_command) ++ check_context_safety c)
  simp only [List.mem_append]
  exact Or.inr (Or.inl (Or.inl (Or.inr h1)))

/-- C10, witness: the theorem applied to `cat /etc/hostname`. -/
theorem claim_c10_witness :
    containsList "/".data (lowerStr recCatEtc.shell_command).data = true ∧
      "Command targets critical system path: /" ∈
        (check_command_safety recCatEtc).warnings :=
  ⟨by decide, claim_c10_slash_warning recCatEtc (by decide)⟩

end ShellGpt
